import Mathlib

/-!
Shallow embedding of the PoWFaucet payout orchestrator
(src/services/EthWeb3Manager.ts) and proofs about its claim pipeline,
wallet-state accounting, status derivation and refill controller.

Modelling conventions:
* JS `bigint` values (balances, amounts, fees) are `Int`.
* JS `number` nonces are `Nat`; timestamps (`Date.getTime()`, epoch
  milliseconds / seconds) are `Int`.
* `BigInt(x.toString())` is the identity on bigints, so a bigint
  serialized through its decimal string is modelled as the integer itself.
* JS truthiness on numbers/bigints: `0` is falsy; on optional fields,
  `undefined`/`null` is falsy.  Optional fields are `Option _`.
* Asynchronous effects (RPC submission results, receipt futures, the
  reconciled wallet state loaded by `loadWalletState`) are supplied by an
  explicit environment; promises that have settled are `Except String _`.
-/

/-- Status enum `ClaimTxStatus` of a claim transaction. -/
inductive ClaimTxStatus where
  | QUEUE
  | PROCESSING
  | PENDING
  | CONFIRMED
  | FAILED
deriving DecidableEq, Repr

/-- Coin type enum `FaucetCoinType`. -/
inductive FaucetCoinType where
  | NATIVE
  | ERC20
deriving DecidableEq, Repr

/-- Wallet status enum `FucetWalletState` (typo kept from the source). -/
inductive FucetWalletState where
  | UNKNOWN
  | NORMAL
  | LOWFUNDS
  | NOFUNDS
  | OFFLINE
deriving DecidableEq, Repr

/-- `ClaimTx`: one payout request.  `time` is the epoch-millisecond value of
the `Date`; optional fields that start out `undefined` are `Option _`. -/
structure ClaimTx where
  queueIdx : Nat
  status : ClaimTxStatus
  time : Int
  target : String
  amount : Int
  session : String
  nonce : Nat
  txhash : Option String
  txblock : Int
  txfee : Int
  retryCount : Nat
  failReason : Option String
deriving DecidableEq, Repr

/-- The `ClaimTx` constructor.  The source writes
`this.time = date ? new Date(date) : new Date()`: a falsy `date`
(absent, or the number 0) falls back to the current clock `now`. -/
def ClaimTx.create (target : String) (amount : Int) (sessId : String)
    (date : Option Int) (now : Int) : ClaimTx :=
  { queueIdx := 0
    status := .QUEUE
    time := match date with
      | some d => if d = 0 then now else d
      | none => now
    target := target
    amount := amount
    session := sessId
    nonce := 0
    txhash := none
    txblock := 0
    txfee := 0
    retryCount := 0
    failReason := none }

/-- Durable serialized form `IQueuedClaimTx` of a claim
(`time`, `target`, `amount`, `session`).  The `amount` travels as a decimal
string in the source; `BigInt ∘ toString` is the identity on bigints, so it
is modelled as the integer. -/
structure IQueuedClaimTx where
  time : Int
  target : String
  amount : Int
  session : String
deriving DecidableEq, Repr

/-- `ClaimTx.serialize`. -/
def ClaimTx.serialize (c : ClaimTx) : IQueuedClaimTx :=
  { time := c.time, target := c.target, amount := c.amount, session := c.session }

/-- Reconstruction of a claim from durable storage, as done in the
`EthWeb3Manager` constructor when restoring the queue:
`new ClaimTx(claimTx.target, BigInt(claimTx.amount), claimTx.session, claimTx.time)`.
`now` is the wall clock at restore time. -/
def restoreClaimTx (q : IQueuedClaimTx) (now : Int) : ClaimTx :=
  ClaimTx.create q.target q.amount q.session (some q.time) now

/-- `WalletState`: cached wallet view (`balance` is the token balance and
equals the native balance in native-coin mode). -/
structure WalletState where
  ready : Bool
  nonce : Nat
  balance : Int
  nativeBalance : Int
deriving DecidableEq, Repr

/-- The part of `FaucetTokenState` the pipeline logic depends on. -/
structure FaucetTokenState where
  address : String
deriving DecidableEq, Repr

/-- `startWeb3` / `initWeb3Token`: `this.tokenState = null` when
`faucetCoinType` is `NATIVE`, otherwise an ERC-20 token state is installed. -/
def tokenStateOf (coinType : FaucetCoinType) (faucetCoinContract : String) :
    Option FaucetTokenState :=
  match coinType with
  | .NATIVE => none
  | .ERC20 => some { address := faucetCoinContract }

/-- The configuration options the embedded logic reads. -/
structure FaucetConfig where
  spareFundsAmount : Int
  ethTxGasLimit : Int
  ethTxMaxFee : Int
  noFundsBalance : Int
  lowFundsBalance : Int
  faucetCoinType : FaucetCoinType
  faucetCoinContract : String
deriving DecidableEq, Repr

/-- Status derivation of `updateFaucetStatus` (the `newStatus` computation,
a chain of reassignments ordered exactly as in the source). -/
def updateFaucetStatusLevel (cfg : FaucetConfig) (walletState : Option WalletState) :
    FucetWalletState :=
  match walletState with
  | none => .UNKNOWN
  | some w =>
    if ¬ w.ready then .OFFLINE
    else if w.balance ≤ cfg.noFundsBalance then .NOFUNDS
    else if w.nativeBalance ≤ cfg.ethTxGasLimit * cfg.ethTxMaxFee then .NOFUNDS
    else if w.balance ≤ cfg.lowFundsBalance then .LOWFUNDS
    else .NORMAL

/-- JS `value || null` applied to a bigint: `0n` is falsy and becomes `null`. -/
def jsBigIntOrNull (v : Int) : Option Int :=
  if v = 0 then none else some v

/-- `getFaucetBalance(native?)`: `this.walletState?.nativeBalance || null`
resp. `this.walletState?.balance || null` (an absent wallet state gives
`undefined`, and `undefined || null` is `null`). -/
def getFaucetBalance (walletState : Option WalletState) (native : Bool) : Option Int :=
  match walletState with
  | none => none
  | some w => if native then jsBigIntOrNull w.nativeBalance else jsBigIntOrNull w.balance

/-- C3: the status publisher derives OFFLINE when not ready; otherwise
NOFUNDS when tokenBalance ≤ noFundsBalance or
nativeBalance ≤ ethTxGasLimit * ethTxMaxFee; otherwise LOWFUNDS when
tokenBalance ≤ lowFundsBalance; otherwise NORMAL. -/
theorem C3_status_derivation (cfg : FaucetConfig) (w : WalletState) :
    (updateFaucetStatusLevel cfg (some w) = .OFFLINE ↔ w.ready = false) ∧
    (updateFaucetStatusLevel cfg (some w) = .NOFUNDS ↔
      (w.ready = true ∧
        (w.balance ≤ cfg.noFundsBalance ∨
          w.nativeBalance ≤ cfg.ethTxGasLimit * cfg.ethTxMaxFee))) ∧
    (updateFaucetStatusLevel cfg (some w) = .LOWFUNDS ↔
      (w.ready = true ∧
        ¬ (w.balance ≤ cfg.noFundsBalance ∨
            w.nativeBalance ≤ cfg.ethTxGasLimit * cfg.ethTxMaxFee) ∧
        w.balance ≤ cfg.lowFundsBalance)) ∧
    (updateFaucetStatusLevel cfg (some w) = .NORMAL ↔
      (w.ready = true ∧
        ¬ (w.balance ≤ cfg.noFundsBalance ∨
            w.nativeBalance ≤ cfg.ethTxGasLimit * cfg.ethTxMaxFee) ∧
        ¬ w.balance ≤ cfg.lowFundsBalance)) := by
  rcases w with ⟨ready, nonce, balance, nativeBalance⟩
  simp only [updateFaucetStatusLevel]
  cases ready <;> split_ifs <;> simp_all

/-- C10: when the stored balance (native or token) is exactly zero,
`getFaucetBalance` returns null rather than 0, exactly as it does for an
uninitialized wallet state. -/
theorem C10_zero_balance_is_null (w : WalletState) :
    (w.nativeBalance = 0 → getFaucetBalance (some w) true = none) ∧
    (w.balance = 0 → getFaucetBalance (some w) false = none) ∧
    getFaucetBalance none true = none ∧ getFaucetBalance none false = none := by
  refine ⟨fun h => ?_, fun h => ?_, rfl, rfl⟩ <;>
    simp [getFaucetBalance, jsBigIntOrNull, h]

/-- Witness for C10 at a concrete zero-balance wallet state. -/
theorem C10_zero_balance_is_null_witness :
    getFaucetBalance (some ⟨true, 5, 0, 0⟩) true = none ∧
    getFaucetBalance (some ⟨true, 5, 0, 0⟩) false = none :=
  ⟨(C10_zero_balance_is_null ⟨true, 5, 0, 0⟩).1 rfl,
   (C10_zero_balance_is_null ⟨true, 5, 0, 0⟩).2.1 rfl⟩

/-- C9 counterexample: a claim whose `time` is 0 (the epoch) does not
round-trip: the reconstructing constructor treats the serialized timestamp 0
as falsy and substitutes the restore-time clock (here 5). -/
theorem C9_counterexample :
    (restoreClaimTx (ClaimTx.serialize (ClaimTx.create "0xA" 1 "s" none 0)) 5).time ≠
      (ClaimTx.create "0xA" 1 "s" none 0).time := by
  decide

/-- C9 (amended): for every claim whose `time` is not 0, serialization
followed by reconstruction preserves `time`, `target`, `amount` and
`session`. -/
theorem C9_serialize_roundtrip (c : ClaimTx) (now : Int) (h : c.time ≠ 0) :
    (restoreClaimTx c.serialize now).time = c.time ∧
    (restoreClaimTx c.serialize now).target = c.target ∧
    (restoreClaimTx c.serialize now).amount = c.amount ∧
    (restoreClaimTx c.serialize now).session = c.session := by
  simp [restoreClaimTx, ClaimTx.serialize, ClaimTx.create, h]

/-- Witness for C9 at a concrete claim with a nonzero timestamp. -/
theorem C9_serialize_roundtrip_witness :
    (ClaimTx.create "0xB" 2 "t" (some 7) 3).time ≠ 0 ∧
    ((restoreClaimTx (ClaimTx.create "0xB" 2 "t" (some 7) 3).serialize 11).time =
        (ClaimTx.create "0xB" 2 "t" (some 7) 3).time ∧
      (restoreClaimTx (ClaimTx.create "0xB" 2 "t" (some 7) 3).serialize 11).target =
        (ClaimTx.create "0xB" 2 "t" (some 7) 3).target ∧
      (restoreClaimTx (ClaimTx.create "0xB" 2 "t" (some 7) 3).serialize 11).amount =
        (ClaimTx.create "0xB" 2 "t" (some 7) 3).amount ∧
      (restoreClaimTx (ClaimTx.create "0xB" 2 "t" (some 7) 3).serialize 11).session =
        (ClaimTx.create "0xB" 2 "t" (some 7) 3).session) :=
  ⟨by decide, C9_serialize_roundtrip (ClaimTx.create "0xB" 2 "t" (some 7) 3) 11 (by decide)⟩

/-- Association-list model of a JS object used as a map: assignment
`obj[k] = v` overwrites any previous binding of `k`. -/
def insertKV {κ α : Type} [DecidableEq κ] (l : List (κ × α)) (k : κ) (v : α) :
    List (κ × α) :=
  (k, v) :: l.filter (fun p => p.1 ≠ k)

/-- `delete obj[k]`. -/
def eraseKV {κ α : Type} [DecidableEq κ] (l : List (κ × α)) (k : κ) :
    List (κ × α) :=
  l.filter (fun p => p.1 ≠ k)

/-- `obj[k]` lookup. -/
def lookupKV {κ α : Type} [DecidableEq κ] (l : List (κ × α)) (k : κ) : Option α :=
  (l.find? (fun p => p.1 = k)).map (fun p => p.2)

/-- `FaucetStoreDB.removeQueuedClaimTx(session)` on the durable queue store. -/
def removeQueuedClaimTx (store : List IQueuedClaimTx) (session : String) :
    List IQueuedClaimTx :=
  store.filter (fun q => q.session ≠ session)

/-- Outcome of one `sendTransaction` attempt.  A failure carries the thrown
error and the wallet state installed by the `loadWalletState()` call that the
catch block performs after the 2-second sleep. -/
inductive SubmitOutcome where
  | success (txHash : String)
  | failure (err : String) (reloadedWallet : WalletState)
deriving DecidableEq, Repr

/-- Result of the submission retry loop of `processQueueTx`. -/
structure SubmitLoopResult where
  wallet : WalletState
  claimNonce : Nat
  txhash : Option String
  firstError : Option String
  noncesUsed : List Nat
deriving DecidableEq, Repr

/-- The `do { ... } while(!txPromise && retryCount++ < 3)` retry loop of
`processQueueTx`.  Each iteration re-reads the current `WalletState.nonce`
(`buildTx` sets `claimTx.nonce = this.walletState.nonce`), submits, and on
failure remembers the first error, sleeps 2 s and reloads the wallet state
before re-testing the loop condition.  `env i` is the outcome of the attempt
with `retryCount = i`; `fuel` is the number of attempts still permitted
(4 at entry), `nonces` accumulates the nonce used by each attempt. -/
def submitLoop (env : Nat → SubmitOutcome) :
    Nat → Nat → WalletState → Option String → List Nat → SubmitLoopResult
  | 0, _, w, firstErr, nonces =>
    { wallet := w, claimNonce := w.nonce, txhash := none,
      firstError := firstErr, noncesUsed := nonces }
  | fuel + 1, i, w, firstErr, nonces =>
    match env i with
    | .success h =>
      { wallet := w, claimNonce := w.nonce, txhash := some h,
        firstError := firstErr, noncesUsed := nonces ++ [w.nonce] }
    | .failure e w₂ =>
      let fe := match firstErr with
        | some x => some x
        | none => some e
      if fuel = 0 then
        { wallet := w₂, claimNonce := w.nonce, txhash := none,
          firstError := fe, noncesUsed := nonces ++ [w.nonce] }
      else
        submitLoop env fuel (i + 1) w₂ fe (nonces ++ [w.nonce])

/-- Result of one `processQueueTx` run (up to and including the synchronous
part; the detached receipt watcher is modelled separately).  `statusTrace`
records every status assigned to the claim, in order; `noncesUsed` records
the nonce of each build+submit attempt. -/
structure ProcessQueueTxResult where
  wallet : WalletState
  claim : ClaimTx
  pendingTxQueue : List (String × ClaimTx)
  durableQueue : List IQueuedClaimTx
  statusTrace : List ClaimTxStatus
  noncesUsed : List Nat
deriving DecidableEq, Repr

/-- Continuation of `processQueueTx` after the retry loop: on a successful
submission (a txHash was obtained) increment the nonce, subtract the amount
from the token balance (and from the native balance when there is no token
state, i.e. native coin mode), insert the claim into the pending map under
its txHash, remove it from the durable queue and set it PENDING; when no
txHash was obtained, the remembered first error is rethrown and the outer
catch marks the claim FAILED. -/
def applySubmitResult (cfg : FaucetConfig) (claimTx : ClaimTx)
    (pending : List (String × ClaimTx)) (store : List IQueuedClaimTx)
    (r : SubmitLoopResult) : ProcessQueueTxResult :=
  let tok := tokenStateOf cfg.faucetCoinType cfg.faucetCoinContract
  match r.txhash with
  | some h =>
    let claim2 : ClaimTx :=
      { claimTx with status := .PENDING, nonce := r.claimNonce, txhash := some h }
    { wallet :=
        { r.wallet with
          nonce := r.wallet.nonce + 1
          balance := r.wallet.balance - claimTx.amount
          nativeBalance :=
            if tok.isNone then r.wallet.nativeBalance - claimTx.amount
            else r.wallet.nativeBalance }
      claim := claim2
      pendingTxQueue := insertKV pending h claim2
      durableQueue := removeQueuedClaimTx store claimTx.session
      statusTrace := [.PROCESSING, .PENDING]
      noncesUsed := r.noncesUsed }
  | none =>
    { wallet := r.wallet
      claim :=
        { claimTx with
          status := .FAILED
          nonce := r.claimNonce
          failReason := some ("Processing Exception: " ++ r.firstError.getD "") }
      pendingTxQueue := pending
      durableQueue := store
      statusTrace := [.PROCESSING, .FAILED]
      noncesUsed := r.noncesUsed }

/-- `processQueueTx(claimTx)`: the two early-failure guards (wallet not
ready; insufficient token or native funds), then PROCESSING and the
submission retry loop. -/
def processQueueTx (cfg : FaucetConfig) (env : Nat → SubmitOutcome)
    (w : WalletState) (pending : List (String × ClaimTx))
    (store : List IQueuedClaimTx) (claimTx : ClaimTx) : ProcessQueueTxResult :=
  if ¬ w.ready then
    { wallet := w
      claim := { claimTx with
        failReason := some "Network RPC is currently unreachable.",
        status := .FAILED }
      pendingTxQueue := pending
      durableQueue := removeQueuedClaimTx store claimTx.session
      statusTrace := [.FAILED]
      noncesUsed := [] }
  else if ¬ w.ready ∨ w.balance - cfg.spareFundsAmount < claimTx.amount ∨
      w.nativeBalance ≤ cfg.ethTxGasLimit * cfg.ethTxMaxFee then
    { wallet := w
      claim := { claimTx with
        failReason := some "Faucet wallet is out of funds.",
        status := .FAILED }
      pendingTxQueue := pending
      durableQueue := removeQueuedClaimTx store claimTx.session
      statusTrace := [.FAILED]
      noncesUsed := [] }
  else
    applySubmitResult cfg claimTx pending store (submitLoop env 4 0 w none [])

theorem lookupKV_insertKV {κ α : Type} [DecidableEq κ] (l : List (κ × α)) (k : κ) (v : α) :
    lookupKV (insertKV l k v) k = some v := by
  simp [lookupKV, insertKV]

theorem tokenStateOf_isNone (ct : FaucetCoinType) (addr : String) :
    (tokenStateOf ct addr).isNone = true ↔ ct = .NATIVE := by
  cases ct <;> simp [tokenStateOf]

/-- C8: a claim dequeued while the wallet is not ready, or while
tokenBalance − spareFundsAmount < amount, or while
nativeBalance ≤ ethTxGasLimit * ethTxMaxFee, is marked FAILED and removed
from the durable queue store, is never set PROCESSING, triggers no
build/submit attempt, and leaves the wallet state and pending map
unchanged. -/
theorem C8_early_failure (cfg : FaucetConfig) (env : Nat → SubmitOutcome)
    (w : WalletState) (pending : List (String × ClaimTx))
    (store : List IQueuedClaimTx) (claimTx : ClaimTx)
    (h : w.ready = false ∨ w.balance - cfg.spareFundsAmount < claimTx.amount ∨
      w.nativeBalance ≤ cfg.ethTxGasLimit * cfg.ethTxMaxFee) :
    (processQueueTx cfg env w pending store claimTx).claim.status = .FAILED ∧
    (processQueueTx cfg env w pending store claimTx).durableQueue =
      removeQueuedClaimTx store claimTx.session ∧
    ClaimTxStatus.PROCESSING ∉ (processQueueTx cfg env w pending store claimTx).statusTrace ∧
    (processQueueTx cfg env w pending store claimTx).noncesUsed = [] ∧
    (processQueueTx cfg env w pending store claimTx).wallet = w ∧
    (processQueueTx cfg env w pending store claimTx).pendingTxQueue = pending := by
  rcases h with h | h | h
  · simp [processQueueTx, h]
  all_goals by_cases hr : w.ready = true
  all_goals simp [processQueueTx, hr, h]

/-- C1: when `processQueueTx` reaches a successful submission (the retry
loop yields a txHash), the pipeline increments the wallet nonce by exactly
1, subtracts the claim amount from the token balance (and from the native
balance iff the coin type is native), moves the claim into the pending map
under the txHash, removes its session from the durable queue store and sets
its status to PENDING. -/
theorem C1_success_pipeline (cfg : FaucetConfig) (env : Nat → SubmitOutcome)
    (w : WalletState) (pending : List (String × ClaimTx))
    (store : List IQueuedClaimTx) (claimTx : ClaimTx) (h : String)
    (hready : w.ready = true)
    (hbal : ¬ w.balance - cfg.spareFundsAmount < claimTx.amount)
    (hnat : ¬ w.nativeBalance ≤ cfg.ethTxGasLimit * cfg.ethTxMaxFee)
    (hsub : (submitLoop env 4 0 w none []).txhash = some h) :
    (processQueueTx cfg env w pending store claimTx).wallet.nonce =
      (submitLoop env 4 0 w none []).wallet.nonce + 1 ∧
    (processQueueTx cfg env w pending store claimTx).wallet.balance =
      (submitLoop env 4 0 w none []).wallet.balance - claimTx.amount ∧
    (cfg.faucetCoinType = .NATIVE →
      (processQueueTx cfg env w pending store claimTx).wallet.nativeBalance =
        (submitLoop env 4 0 w none []).wallet.nativeBalance - claimTx.amount) ∧
    (cfg.faucetCoinType ≠ .NATIVE →
      (processQueueTx cfg env w pending store claimTx).wallet.nativeBalance =
        (submitLoop env 4 0 w none []).wallet.nativeBalance) ∧
    lookupKV (processQueueTx cfg env w pending store claimTx).pendingTxQueue h =
      some (processQueueTx cfg env w pending store claimTx).claim ∧
    (processQueueTx cfg env w pending store claimTx).claim.session = claimTx.session ∧
    (processQueueTx cfg env w pending store claimTx).claim.txhash = some h ∧
    (processQueueTx cfg env w pending store claimTx).durableQueue =
      removeQueuedClaimTx store claimTx.session ∧
    (processQueueTx cfg env w pending store claimTx).claim.status = .PENDING := by
  have hrw : processQueueTx cfg env w pending store claimTx =
      applySubmitResult cfg claimTx pending store (submitLoop env 4 0 w none []) := by
    simp [processQueueTx, hready, hbal, hnat]
  rw [hrw]
  unfold applySubmitResult
  rw [hsub]
  cases hct : cfg.faucetCoinType <;>
    simp [lookupKV_insertKV, tokenStateOf, hct, removeQueuedClaimTx]

/-- C4: when every submission attempt fails, `processQueueTx` makes exactly
4 attempts, each rebuilding the transaction from the wallet nonce current
at that attempt (the wallet having been reconciled between attempts), and
then marks the claim FAILED with a failure reason derived from the first
captured exception. -/
theorem C4_all_attempts_fail (cfg : FaucetConfig) (env : Nat → SubmitOutcome)
    (w : WalletState) (pending : List (String × ClaimTx))
    (store : List IQueuedClaimTx) (claimTx : ClaimTx)
    (hready : w.ready = true)
    (hbal : ¬ w.balance - cfg.spareFundsAmount < claimTx.amount)
    (hnat : ¬ w.nativeBalance ≤ cfg.ethTxGasLimit * cfg.ethTxMaxFee)
    (e₀ e₁ e₂ e₃ : String) (w₁ w₂ w₃ w₄ : WalletState)
    (h0 : env 0 = .failure e₀ w₁) (h1 : env 1 = .failure e₁ w₂)
    (h2 : env 2 = .failure e₂ w₃) (h3 : env 3 = .failure e₃ w₄) :
    (processQueueTx cfg env w pending store claimTx).noncesUsed =
      [w.nonce, w₁.nonce, w₂.nonce, w₃.nonce] ∧
    (processQueueTx cfg env w pending store claimTx).noncesUsed.length = 4 ∧
    (processQueueTx cfg env w pending store claimTx).claim.status = .FAILED ∧
    (processQueueTx cfg env w pending store claimTx).claim.failReason =
      some ("Processing Exception: " ++ e₀) ∧
    (processQueueTx cfg env w pending store claimTx).statusTrace =
      [.PROCESSING, .FAILED] ∧
    (processQueueTx cfg env w pending store claimTx).wallet = w₄ := by
  have hloop : submitLoop env 4 0 w none [] =
      { wallet := w₄, claimNonce := w₃.nonce, txhash := none,
        firstError := some e₀,
        noncesUsed := [w.nonce, w₁.nonce, w₂.nonce, w₃.nonce] } := by
    simp [submitLoop, h0, h1, h2, h3]
  simp [processQueueTx, hready, hbal, hnat, applySubmitResult, hloop]

/-- Sample configuration for witnesses: native coin, gas envelope
21000 × 100. -/
def sampleCfg : FaucetConfig :=
  { spareFundsAmount := 0, ethTxGasLimit := 21000, ethTxMaxFee := 100,
    noFundsBalance := 0, lowFundsBalance := 10,
    faucetCoinType := .NATIVE, faucetCoinContract := "" }

/-- Sample claim for witnesses. -/
def sampleClaim : ClaimTx := ClaimTx.create "0xA" 5 "sess1" (some 7) 0

/-- Submission environment in which every attempt succeeds. -/
def envOk : Nat → SubmitOutcome := fun _ => .success "0xhash"

/-- Submission environment in which every attempt fails, reconciliation
installing wallet nonce i + 1 after attempt i. -/
def envAllFail : Nat → SubmitOutcome :=
  fun i => .failure "send failed" ⟨true, i + 1, 50, 5000000⟩

/-- A ready wallet with ample funds for the sample configuration. -/
def readyWallet : WalletState := ⟨true, 5, 1000, 5000000⟩

/-- A wallet that is not ready. -/
def offlineWallet : WalletState := ⟨false, 0, 0, 0⟩

/-- Witness for C8 at a concrete not-ready wallet. -/
theorem C8_early_failure_witness :
    (processQueueTx sampleCfg envOk offlineWallet [] [] sampleClaim).claim.status = .FAILED ∧
    (processQueueTx sampleCfg envOk offlineWallet [] [] sampleClaim).durableQueue =
      removeQueuedClaimTx [] sampleClaim.session ∧
    ClaimTxStatus.PROCESSING ∉
      (processQueueTx sampleCfg envOk offlineWallet [] [] sampleClaim).statusTrace ∧
    (processQueueTx sampleCfg envOk offlineWallet [] [] sampleClaim).noncesUsed = [] ∧
    (processQueueTx sampleCfg envOk offlineWallet [] [] sampleClaim).wallet = offlineWallet ∧
    (processQueueTx sampleCfg envOk offlineWallet [] [] sampleClaim).pendingTxQueue = [] :=
  C8_early_failure sampleCfg envOk offlineWallet [] [] sampleClaim (Or.inl (by decide))

/-- Witness for C1 at a concrete ready wallet and a first-attempt success. -/
theorem C1_success_pipeline_witness :
    (processQueueTx sampleCfg envOk readyWallet [] [] sampleClaim).wallet.nonce =
      (submitLoop envOk 4 0 readyWallet none []).wallet.nonce + 1 ∧
    (processQueueTx sampleCfg envOk readyWallet [] [] sampleClaim).wallet.balance =
      (submitLoop envOk 4 0 readyWallet none []).wallet.balance - sampleClaim.amount ∧
    (sampleCfg.faucetCoinType = .NATIVE →
      (processQueueTx sampleCfg envOk readyWallet [] [] sampleClaim).wallet.nativeBalance =
        (submitLoop envOk 4 0 readyWallet none []).wallet.nativeBalance - sampleClaim.amount) ∧
    (sampleCfg.faucetCoinType ≠ .NATIVE →
      (processQueueTx sampleCfg envOk readyWallet [] [] sampleClaim).wallet.nativeBalance =
        (submitLoop envOk 4 0 readyWallet none []).wallet.nativeBalance) ∧
    lookupKV (processQueueTx sampleCfg envOk readyWallet [] [] sampleClaim).pendingTxQueue
        "0xhash" =
      some (processQueueTx sampleCfg envOk readyWallet [] [] sampleClaim).claim ∧
    (processQueueTx sampleCfg envOk readyWallet [] [] sampleClaim).claim.session =
      sampleClaim.session ∧
    (processQueueTx sampleCfg envOk readyWallet [] [] sampleClaim).claim.txhash =
      some "0xhash" ∧
    (processQueueTx sampleCfg envOk readyWallet [] [] sampleClaim).durableQueue =
      removeQueuedClaimTx [] sampleClaim.session ∧
    (processQueueTx sampleCfg envOk readyWallet [] [] sampleClaim).claim.status = .PENDING :=
  C1_success_pipeline sampleCfg envOk readyWallet [] [] sampleClaim "0xhash"
    (by decide) (by decide) (by decide) (by decide)

/-- Witness for C4 at a concrete environment in which all 4 attempts fail. -/
theorem C4_all_attempts_fail_witness :
    (processQueueTx sampleCfg envAllFail readyWallet [] [] sampleClaim).noncesUsed =
      [readyWallet.nonce, 1, 2, 3] ∧
    (processQueueTx sampleCfg envAllFail readyWallet [] [] sampleClaim).noncesUsed.length = 4 ∧
    (processQueueTx sampleCfg envAllFail readyWallet [] [] sampleClaim).claim.status = .FAILED ∧
    (processQueueTx sampleCfg envAllFail readyWallet [] [] sampleClaim).claim.failReason =
      some ("Processing Exception: " ++ "send failed") ∧
    (processQueueTx sampleCfg envAllFail readyWallet [] [] sampleClaim).statusTrace =
      [.PROCESSING, .FAILED] ∧
    (processQueueTx sampleCfg envAllFail readyWallet [] [] sampleClaim).wallet =
      ⟨true, 4, 50, 5000000⟩ :=
  C4_all_attempts_fail sampleCfg envAllFail readyWallet [] [] sampleClaim
    (by decide) (by decide) (by decide)
    "send failed" "send failed" "send failed" "send failed"
    ⟨true, 1, 50, 5000000⟩ ⟨true, 2, 50, 5000000⟩ ⟨true, 3, 50, 5000000⟩ ⟨true, 4, 50, 5000000⟩
    (by decide) (by decide) (by decide) (by decide)

/-- The receipt fields the watcher and refill controller read. -/
structure TxReceipt where
  blockNumber : Int
  effectiveGasPrice : Int
  gasUsed : Int
  status : Bool
deriving DecidableEq, Repr

/-- Result of the detached receipt watcher of `processQueueTx`. -/
structure WatchResult where
  wallet : WalletState
  claim : ClaimTx
  pendingTxQueue : List (String × ClaimTx)
  historyTxDict : List (Nat × ClaimTx)
  evictionKey : Nat
  evictionDelayMs : Int
deriving DecidableEq, Repr

/-- The receipt-watcher continuation attached to `txPromise` in
`processQueueTx`: `outcome` is the settled result after the
"not mined → poll" fallback (a receipt, or the final rejection).  On a
receipt: delete from pending, record txblock and
txfee = effectiveGasPrice * gasUsed, subtract txfee from nativeBalance (and
from the token balance when there is no token state), set CONFIRMED.  On an
error: delete from pending, record the failure, set FAILED.  In both cases
insert into `historyTxDict[nonce]` and schedule its eviction
30 * 60 * 1000 ms later. -/
def watchClaimTx (cfg : FaucetConfig) (w : WalletState)
    (pending : List (String × ClaimTx)) (history : List (Nat × ClaimTx))
    (claimTx : ClaimTx) (outcome : Except String TxReceipt) : WatchResult :=
  let tok := tokenStateOf cfg.faucetCoinType cfg.faucetCoinContract
  match outcome with
  | .ok receipt =>
    let claim2 : ClaimTx :=
      { claimTx with
        txblock := receipt.blockNumber
        status := .CONFIRMED
        txfee := receipt.effectiveGasPrice * receipt.gasUsed }
    { wallet :=
        { w with
          nativeBalance := w.nativeBalance - claim2.txfee
          balance := if tok.isNone then w.balance - claim2.txfee else w.balance }
      claim := claim2
      pendingTxQueue := eraseKV pending (claimTx.txhash.getD "")
      historyTxDict := insertKV history claim2.nonce claim2
      evictionKey := claim2.nonce
      evictionDelayMs := 30 * 60 * 1000 }
  | .error e =>
    let claim2 : ClaimTx :=
      { claimTx with
        failReason := some ("Transaction Error: " ++ e)
        status := .FAILED }
    { wallet := w
      claim := claim2
      pendingTxQueue := eraseKV pending (claimTx.txhash.getD "")
      historyTxDict := insertKV history claim2.nonce claim2
      evictionKey := claim2.nonce
      evictionDelayMs := 30 * 60 * 1000 }

/-- C5: when a pending claim's receipt resolves successfully the watcher
removes it from the pending map, records txblock and
txfee = effectiveGasPrice * gasUsed, subtracts txfee from the native
balance (and from the token balance iff the coin type is native) and sets
CONFIRMED; and in both the confirmed and the failed outcome the claim is
inserted into the history map keyed by its nonce with eviction scheduled
30 minutes later. -/
theorem C5_receipt_watcher (cfg : FaucetConfig) (w : WalletState)
    (pending : List (String × ClaimTx)) (history : List (Nat × ClaimTx))
    (claimTx : ClaimTx) (h : String) (receipt : TxReceipt) (e : String)
    (hx : claimTx.txhash = some h) :
    (watchClaimTx cfg w pending history claimTx (.ok receipt)).pendingTxQueue =
      eraseKV pending h ∧
    (watchClaimTx cfg w pending history claimTx (.ok receipt)).claim.txblock =
      receipt.blockNumber ∧
    (watchClaimTx cfg w pending history claimTx (.ok receipt)).claim.txfee =
      receipt.effectiveGasPrice * receipt.gasUsed ∧
    (watchClaimTx cfg w pending history claimTx (.ok receipt)).wallet.nativeBalance =
      w.nativeBalance - receipt.effectiveGasPrice * receipt.gasUsed ∧
    (cfg.faucetCoinType = .NATIVE →
      (watchClaimTx cfg w pending history claimTx (.ok receipt)).wallet.balance =
        w.balance - receipt.effectiveGasPrice * receipt.gasUsed) ∧
    (cfg.faucetCoinType ≠ .NATIVE →
      (watchClaimTx cfg w pending history claimTx (.ok receipt)).wallet.balance =
        w.balance) ∧
    (watchClaimTx cfg w pending history claimTx (.ok receipt)).claim.status =
      .CONFIRMED ∧
    lookupKV (watchClaimTx cfg w pending history claimTx (.ok receipt)).historyTxDict
        (watchClaimTx cfg w pending history claimTx (.ok receipt)).claim.nonce =
      some (watchClaimTx cfg w pending history claimTx (.ok receipt)).claim ∧
    (watchClaimTx cfg w pending history claimTx (.ok receipt)).evictionKey =
      (watchClaimTx cfg w pending history claimTx (.ok receipt)).claim.nonce ∧
    (watchClaimTx cfg w pending history claimTx (.ok receipt)).evictionDelayMs =
      30 * 60 * 1000 ∧
    (watchClaimTx cfg w pending history claimTx (.error e)).claim.status = .FAILED ∧
    lookupKV (watchClaimTx cfg w pending history claimTx (.error e)).historyTxDict
        (watchClaimTx cfg w pending history claimTx (.error e)).claim.nonce =
      some (watchClaimTx cfg w pending history claimTx (.error e)).claim ∧
    (watchClaimTx cfg w pending history claimTx (.error e)).evictionKey =
      (watchClaimTx cfg w pending history claimTx (.error e)).claim.nonce ∧
    (watchClaimTx cfg w pending history claimTx (.error e)).evictionDelayMs =
      30 * 60 * 1000 := by
  cases hct : cfg.faucetCoinType <;>
    simp [watchClaimTx, tokenStateOf, hct, hx, lookupKV_insertKV]

/-- Witness for C5 at a concrete pending claim and receipt. -/
theorem C5_receipt_watcher_witness :
    ({ sampleClaim with txhash := some "0xhash" } : ClaimTx).txhash = some "0xhash" ∧
    (watchClaimTx sampleCfg readyWallet [] [] { sampleClaim with txhash := some "0xhash" }
        (.ok ⟨100, 7, 21000, true⟩)).claim.status = .CONFIRMED ∧
    (watchClaimTx sampleCfg readyWallet [] [] { sampleClaim with txhash := some "0xhash" }
        (.ok ⟨100, 7, 21000, true⟩)).claim.txfee = 7 * 21000 ∧
    (watchClaimTx sampleCfg readyWallet [] [] { sampleClaim with txhash := some "0xhash" }
        (.ok ⟨100, 7, 21000, true⟩)).evictionDelayMs = 30 * 60 * 1000 :=
  have hfull := C5_receipt_watcher sampleCfg readyWallet [] []
    { sampleClaim with txhash := some "0xhash" } "0xhash" ⟨100, 7, 21000, true⟩ "boom" rfl
  ⟨rfl, hfull.2.2.2.2.2.2.1, hfull.2.2.1, hfull.2.2.2.2.2.2.2.2.2.1⟩

/-- Does the character list start with the pattern? -/
def startsChars : List Char → List Char → Bool
  | [], _ => true
  | _ :: _, [] => false
  | p :: ps, c :: cs => p == c && startsChars ps cs

/-- Does the character list contain the pattern as a contiguous run? -/
def hasSubChars (pat : List Char) : List Char → Bool
  | [] => pat.isEmpty
  | c :: rest => startsChars pat (c :: rest) || hasSubChars pat rest

/-- Substring test `ex.toString().match(/Transaction was not mined within/)`. -/
def isNotMinedError (e : String) : Bool :=
  hasSubChars "Transaction was not mined within".toList e.toList

/-- The `walletRefilling` guard value once a refill/overflow attempt has
completed, modelled from the try/catch structure of `tryRefillWallet`:
`submit` is the result of `refillWallet()`/`overflowWallet(...)` (txhash or
thrown error); `future` is the settled state of the receipt promise
`txResult[1]`; `poll` is the result of `awaitTransactionReceipt` (consulted
only when the future rejected with the "not mined" error).  The guard is
cleared by the outer catch on any throw, and by the detached
`txResult[1].then(...)` handler - which runs only when `txResult[1]`
actually resolved. -/
def refillGuardAfterAttempt (submit : Except String String)
    (future : Except String TxReceipt) (poll : Except String TxReceipt) : Bool :=
  match submit with
  | .error _ => false
  | .ok _ =>
    let awaited : Except String TxReceipt :=
      match future with
      | .ok r => .ok r
      | .error e => if isNotMinedError e then poll else .error e
    match awaited with
    | .error _ => false
    | .ok r =>
      if ¬ r.status then false
      else
        match future with
        | .ok _ => false
        | .error _ => true

/-- C6 (code evaluation at the failing input): when the receipt future
rejects with "Transaction was not mined within ..." and the polled receipt
succeeds with status=true, the attempt completes successfully but
`walletRefilling` is left set (the clearing `.then` handler hangs on the
already-rejected `txResult[1]`), while every other completion path does
clear the guard. -/
theorem C6_guard_stuck_after_polled_receipt :
    refillGuardAfterAttempt (.ok "0xrefill")
      (.error "Transaction was not mined within 50 blocks")
      (.ok ⟨100, 7, 21000, true⟩) = true ∧
    refillGuardAfterAttempt (.error "submit failed")
      (.error "Transaction was not mined within 50 blocks")
      (.ok ⟨100, 7, 21000, true⟩) = false ∧
    refillGuardAfterAttempt (.ok "0xrefill") (.ok ⟨100, 7, 21000, true⟩)
      (.ok ⟨100, 7, 21000, true⟩) = false ∧
    refillGuardAfterAttempt (.ok "0xrefill") (.ok ⟨100, 7, 21000, false⟩)
      (.ok ⟨100, 7, 21000, true⟩) = false ∧
    refillGuardAfterAttempt (.ok "0xrefill") (.error "nonce too low")
      (.ok ⟨100, 7, 21000, true⟩) = false ∧
    refillGuardAfterAttempt (.ok "0xrefill")
      (.error "Transaction was not mined within 50 blocks")
      (.error "CONNECTION ERROR: timeout") = false ∧
    refillGuardAfterAttempt (.ok "0xrefill")
      (.error "Transaction was not mined within 50 blocks")
      (.ok ⟨100, 7, 21000, false⟩) = false := by
  decide

/-- `getQueuedAmount()`: sum of `amount` over the claim queue. -/
def getQueuedAmount (queue : List ClaimTx) : Int :=
  queue.foldl (fun acc c => acc + c.amount) 0

/-- The fields of `ethRefillContract` the decision logic reads. -/
structure EthRefillConfig where
  triggerBalance : Int
  overflowBalance : Option Int
  cooldownTime : Int
deriving DecidableEq, Repr

/-- Refill-controller action. -/
inductive RefillAction where
  | overflow (amount : Int)
  | refill
deriving DecidableEq, Repr

/-- JS truthiness of an optional numeric/bigint field: absent, null and 0
are falsy. -/
def jsTruthy (v : Option Int) : Bool :=
  match v with
  | some x => x != 0
  | none => false

/-- `tryRefillWallet` up to the choice of action: the configured-contract
check, the re-entrancy guard, the 60-second retry window and the cooldown
window, then `walletBalance = balance − unclaimedBalance − getQueuedAmount()`
and the overflow/refill decision.  Returns `none` when a guard skips the
tick or when no action is needed. -/
def tryRefillDecision (refillCfg : Option EthRefillConfig)
    (walletRefilling : Bool) (lastWalletRefillTry lastWalletRefill : Option Int)
    (now : Int) (balance unclaimedBalance : Int) (queue : List ClaimTx) :
    Option RefillAction :=
  match refillCfg with
  | none => none
  | some rc =>
    if walletRefilling then none
    else if jsTruthy lastWalletRefillTry ∧ now - lastWalletRefillTry.getD 0 < 60 then
      none
    else if jsTruthy lastWalletRefill ∧ rc.cooldownTime ≠ 0 ∧
        now - lastWalletRefill.getD 0 < rc.cooldownTime then
      none
    else
      let walletBalance := balance - unclaimedBalance - getQueuedAmount queue
      if jsTruthy rc.overflowBalance ∧ walletBalance > rc.overflowBalance.getD 0 then
        some (.overflow (walletBalance - rc.overflowBalance.getD 0))
      else if walletBalance < rc.triggerBalance then
        some .refill
      else
        none

/-- C7: when the refill controller runs past its guards it computes
effectiveBalance = tokenBalance − unclaimedRewardLiability − Σ amount over
the queue, then: overflow of exactly effectiveBalance − overflowBalance
when overflowBalance is configured (truthy) and exceeded; else refill when
effectiveBalance < triggerBalance; else no action. -/
theorem C7_refill_decision (rc : EthRefillConfig)
    (lastWalletRefillTry lastWalletRefill : Option Int) (now : Int)
    (balance unclaimedBalance : Int) (queue : List ClaimTx)
    (hretry : ¬ (jsTruthy lastWalletRefillTry = true ∧
      now - lastWalletRefillTry.getD 0 < 60))
    (hcooldown : ¬ (jsTruthy lastWalletRefill = true ∧ rc.cooldownTime ≠ 0 ∧
      now - lastWalletRefill.getD 0 < rc.cooldownTime)) :
    (jsTruthy rc.overflowBalance = true ∧
        balance - unclaimedBalance - getQueuedAmount queue >
          rc.overflowBalance.getD 0 →
      tryRefillDecision (some rc) false lastWalletRefillTry lastWalletRefill now
          balance unclaimedBalance queue =
        some (.overflow (balance - unclaimedBalance - getQueuedAmount queue -
          rc.overflowBalance.getD 0))) ∧
    (¬ (jsTruthy rc.overflowBalance = true ∧
        balance - unclaimedBalance - getQueuedAmount queue >
          rc.overflowBalance.getD 0) →
      balance - unclaimedBalance - getQueuedAmount queue < rc.triggerBalance →
      tryRefillDecision (some rc) false lastWalletRefillTry lastWalletRefill now
          balance unclaimedBalance queue = some .refill) ∧
    (¬ (jsTruthy rc.overflowBalance = true ∧
        balance - unclaimedBalance - getQueuedAmount queue >
          rc.overflowBalance.getD 0) →
      ¬ balance - unclaimedBalance - getQueuedAmount queue < rc.triggerBalance →
      tryRefillDecision (some rc) false lastWalletRefillTry lastWalletRefill now
          balance unclaimedBalance queue = none) := by
  refine ⟨fun hov => ?_, fun hov hlt => ?_, fun hov hlt => ?_⟩
  · simp [tryRefillDecision, hretry, hcooldown, hov.1, hov.2]
  · simp [tryRefillDecision, hretry, hcooldown, hov, hlt]
  · simp [tryRefillDecision, hretry, hcooldown, hov, hlt]

/-- Witness for C7 at a concrete overflow situation: token balance 100,
liability 10, queued 5, overflowBalance 50 → overflow of 35. -/
theorem C7_refill_decision_witness :
    ¬ (jsTruthy (some 0) = true ∧ (1000 : Int) - (Option.some (0 : Int)).getD 0 < 60) ∧
    ¬ (jsTruthy (none : Option Int) = true ∧ (600 : Int) ≠ 0 ∧
      (1000 : Int) - (Option.none (α := Int)).getD 0 < 600) ∧
    tryRefillDecision (some ⟨200, some 50, 600⟩) false (some 0) none 1000
        100 10 [sampleClaim] = some (.overflow 35) :=
  have hr : ¬ (jsTruthy (some 0) = true ∧ (1000 : Int) - (Option.some (0 : Int)).getD 0 < 60) := by
    decide
  have hc : ¬ (jsTruthy (none : Option Int) = true ∧ (600 : Int) ≠ 0 ∧
      (1000 : Int) - (Option.none (α := Int)).getD 0 < 600) := by
    decide
  ⟨hr, hc,
    (C7_refill_decision ⟨200, some 50, 600⟩ (some 0) none 1000 100 10 [sampleClaim]
        hr hc).1 (by decide)⟩

/-- The three claim containers owned by the manager: `claimTxQueue`,
`pendingTxQueue` (keyed by txhash) and `historyTxDict` (keyed by nonce). -/
structure PipeState where
  queue : List ClaimTx
  pending : List (String × ClaimTx)
  history : List (Nat × ClaimTx)
deriving DecidableEq, Repr

/-- Number of claims carrying session `s` across queue ∪ pending ∪ history. -/
def sessionCount (st : PipeState) (s : String) : Nat :=
  st.queue.countP (fun c => decide (c.session = s)) +
    (st.pending.map Prod.snd).countP (fun c => decide (c.session = s)) +
    (st.history.map Prod.snd).countP (fun c => decide (c.session = s))

/-- Manager-level state touched by `addClaimTransaction`. -/
structure ManagerState where
  pipe : PipeState
  lastClaimTxIdx : Nat
  durableQueue : List IQueuedClaimTx
deriving DecidableEq, Repr

/-- `addClaimTransaction(target, amount, sessId)`: construct a QUEUE claim,
assign `queueIdx = this.lastClaimTxIdx++`, push it onto the queue and write
its serialized form to the durable store.  No duplicate-session check is
performed. -/
def addClaimTransaction (ms : ManagerState) (target : String) (amount : Int)
    (sessId : String) (now : Int) : ManagerState × ClaimTx :=
  let claimTx : ClaimTx :=
    { ClaimTx.create target amount sessId none now with queueIdx := ms.lastClaimTxIdx }
  ({ pipe := { ms.pipe with queue := ms.pipe.queue ++ [claimTx] }
     lastClaimTxIdx := ms.lastClaimTxIdx + 1
     durableQueue := ms.durableQueue ++ [claimTx.serialize] }, claimTx)

/-- Pipeline reachability with fresh sessions at enqueue time.  `add`
covers `addClaimTransaction` and the startup restore (both append one new
claim to the queue), restricted to session ids not currently present in any
container; `drop` covers `processQueueTx` failing the dequeued head (the
claim then lives in none of the three containers); `submit` covers a
successful submission moving the dequeued head (status/txhash updated,
session unchanged) into `pendingTxQueue[txhash]`; `settle` covers the
receipt watcher moving a pending claim (session unchanged) into
`historyTxDict[nonce]`; `evict` covers the scheduled history eviction. -/
inductive ReachablePipe : PipeState → Prop
  | init : ReachablePipe { queue := [], pending := [], history := [] }
  | add {st : PipeState} (c : ClaimTx) (hr : ReachablePipe st)
      (fresh : sessionCount st c.session = 0) :
      ReachablePipe { st with queue := st.queue ++ [c] }
  | drop {st : PipeState} {c : ClaimTx} {rest : List ClaimTx}
      (hr : ReachablePipe st) (hq : st.queue = c :: rest) :
      ReachablePipe { st with queue := rest }
  | submit {st : PipeState} {c c₂ : ClaimTx} {rest : List ClaimTx} (h : String)
      (hr : ReachablePipe st) (hq : st.queue = c :: rest)
      (hsess : c₂.session = c.session) :
      ReachablePipe
        { queue := rest, pending := insertKV st.pending h c₂, history := st.history }
  | settle {st : PipeState} {c c₂ : ClaimTx} (h : String) (n : Nat)
      (hr : ReachablePipe st) (hp : lookupKV st.pending h = some c)
      (hsess : c₂.session = c.session) :
      ReachablePipe
        { st with
          pending := eraseKV st.pending h
          history := insertKV st.history n c₂ }
  | evict {st : PipeState} (n : Nat) (hr : ReachablePipe st) :
      ReachablePipe { st with history := eraseKV st.history n }

theorem countP_map_snd_insertKV {κ α : Type} [DecidableEq κ] (p : α → Bool)
    (l : List (κ × α)) (k : κ) (v : α) :
    ((insertKV l k v).map Prod.snd).countP p ≤
      (if p v then 1 else 0) + (l.map Prod.snd).countP p := by
  have hsub : List.Sublist ((l.filter (fun q => q.1 ≠ k)).map Prod.snd)
      (l.map Prod.snd) := (List.filter_sublist l).map Prod.snd
  have hle := hsub.countP_le p
  simp only [insertKV, List.map_cons, List.countP_cons]
  omega

theorem countP_map_snd_eraseKV_le {κ α : Type} [DecidableEq κ] (p : α → Bool)
    (l : List (κ × α)) (k : κ) :
    ((eraseKV l k).map Prod.snd).countP p ≤ (l.map Prod.snd).countP p :=
  (((List.filter_sublist l).map Prod.snd).countP_le p)

theorem countP_map_snd_eraseKV_lookup {κ α : Type} [DecidableEq κ] (p : α → Bool)
    (l : List (κ × α)) (k : κ) (v : α) (hv : lookupKV l k = some v) :
    ((eraseKV l k).map Prod.snd).countP p + (if p v then 1 else 0) ≤
      (l.map Prod.snd).countP p := by
  induction l with
  | nil => simp [lookupKV] at hv
  | cons a rest ih =>
    by_cases hk : a.1 = k
    · have hva : v = a.2 := by
        simp [lookupKV, List.find?_cons, hk] at hv
        exact hv.symm
      have herase : eraseKV (a :: rest) k = eraseKV rest k := by
        simp [eraseKV, List.filter_cons, hk]
      have hle := countP_map_snd_eraseKV_le p rest k
      rw [herase, hva]
      simp only [List.map_cons, List.countP_cons]
      omega
    · have hv' : lookupKV rest k = some v := by
        simpa [lookupKV, List.find?_cons, hk] using hv
      have herase : eraseKV (a :: rest) k = a :: eraseKV rest k := by
        simp [eraseKV, List.filter_cons, hk]
      have := ih hv'
      rw [herase]
      simp only [List.map_cons, List.countP_cons]
      omega

theorem countP_session_insertKV {κ : Type} [DecidableEq κ]
    (l : List (κ × ClaimTx)) (k : κ) (v : ClaimTx) (s : String) :
    ((insertKV l k v).map Prod.snd).countP (fun c => decide (c.session = s)) ≤
      (if v.session = s then 1 else 0) +
        (l.map Prod.snd).countP (fun c => decide (c.session = s)) := by
  have hgen := countP_map_snd_insertKV (fun c => decide (c.session = s)) l k v
  by_cases hb : v.session = s
  · rw [if_pos hb]
    simpa [hb] using hgen
  · rw [if_neg hb]
    simpa [hb] using hgen

theorem countP_session_eraseKV_lookup {κ : Type} [DecidableEq κ]
    (l : List (κ × ClaimTx)) (k : κ) (v : ClaimTx) (s : String)
    (hv : lookupKV l k = some v) :
    ((eraseKV l k).map Prod.snd).countP (fun c => decide (c.session = s)) +
      (if v.session = s then 1 else 0) ≤
      (l.map Prod.snd).countP (fun c => decide (c.session = s)) := by
  have hgen := countP_map_snd_eraseKV_lookup (fun c => decide (c.session = s)) l k v hv
  by_cases hb : v.session = s
  · rw [if_pos hb]
    simpa [hb] using hgen
  · rw [if_neg hb]
    simpa [hb] using hgen

theorem sessionCount_append_queue (st : PipeState) (c : ClaimTx) (s : String) :
    sessionCount { st with queue := st.queue ++ [c] } s =
      sessionCount st s + (if c.session = s then 1 else 0) := by
  by_cases hcs : c.session = s
  · simp [sessionCount, List.countP_append, List.countP_cons, hcs]
    omega
  · simp [sessionCount, List.countP_append, List.countP_cons, hcs]

/-- C2 (amended): provided every enqueued claim uses a session id not
currently present in queue ∪ pending ∪ history, every reachable pipeline
state contains at most one claim per session across the three containers. -/
theorem C2_session_unique {st : PipeState} (hr : ReachablePipe st) (s : String) :
    sessionCount st s ≤ 1 := by
  induction hr with
  | init => simp [sessionCount]
  | add c hr fresh ih =>
    rw [sessionCount_append_queue]
    by_cases hcs : c.session = s
    · have h0 : sessionCount _ s = 0 := hcs ▸ fresh
      rw [if_pos hcs]
      omega
    · rw [if_neg hcs]
      omega
  | @drop st c rest hr hq ih =>
    have hle : rest.countP (fun x => decide (x.session = s)) ≤
        st.queue.countP (fun x => decide (x.session = s)) := by
      rw [hq, List.countP_cons]
      omega
    simp only [sessionCount] at ih ⊢
    omega
  | @submit st c c₂ rest h hr hq hsess ih =>
    have hins := countP_session_insertKV st.pending h c₂ s
    simp only [hsess] at hins
    have hq' : st.queue.countP (fun x => decide (x.session = s)) =
        rest.countP (fun x => decide (x.session = s)) +
          (if c.session = s then 1 else 0) := by
      rw [hq, List.countP_cons]
      by_cases hb : c.session = s <;> simp [hb]
    simp only [sessionCount] at ih ⊢
    by_cases hb : c.session = s
    · rw [if_pos hb] at hins hq'
      omega
    · rw [if_neg hb] at hins hq'
      omega
  | @settle st c c₂ h n hr hp hsess ih =>
    have her := countP_session_eraseKV_lookup st.pending h c s hp
    have hins := countP_session_insertKV st.history n c₂ s
    simp only [hsess] at hins
    simp only [sessionCount] at ih ⊢
    by_cases hb : c.session = s
    · rw [if_pos hb] at hins her
      omega
    · rw [if_neg hb] at hins her
      omega
  | @evict st n hr ih =>
    have hle := countP_map_snd_eraseKV_le (fun x => decide (x.session = s)) st.history n
    simp only [sessionCount] at ih ⊢
    omega

/-- C2 counterexample: two `addClaimTransaction` calls with the same session
id "s" (which the code does not reject) leave two claims with session "s"
in the queue, so the claim as stated fails. -/
theorem C2_counterexample :
    sessionCount
      ((addClaimTransaction
          (addClaimTransaction
            { pipe := { queue := [], pending := [], history := [] },
              lastClaimTxIdx := 1, durableQueue := [] }
            "0xA" 1 "s" 10).1
          "0xB" 2 "s" 11).1).pipe "s" = 2 := by
  decide

/-- Witness for C2 (amended) at a concretely reachable state with one
enqueued claim. -/
theorem C2_session_unique_witness :
    sessionCount { queue := [sampleClaim], pending := [], history := [] } "sess1" ≤ 1 :=
  C2_session_unique
    (ReachablePipe.add sampleClaim ReachablePipe.init (by decide)) "sess1"
